import Mathlib

/-!
Verification development for the university-admissions crawler.

This file gives a shallow embedding, in Lean 4, of the crawler's core
pipeline — the retry/backoff fetcher (`fetch_html` in `src/main.py`), the
cascading detail extractor (`extract_details` in `src/main.py`), the
cross-page merge/dedup logic and orchestration of the CI variant
(`extract_university_data` / `process_universities` in `src/main_ci.py`),
and the sequential orchestrator (`structured_extraction` in
`src/main.py`) — and proves or refutes the specified properties of each.

HTML documents are modelled as trees of element/text nodes; BeautifulSoup
operations used by the source (`get_text`, `find_all`, `find_next`,
`select` over the fixed class selectors the code uses) are given their
document-order semantics over that tree. Network fetches, wall-clock
timestamps and the crawl4ai browser are external effects and enter the
model as explicit oracles (`fetch : String → Option Doc`,
`crawl : String → Except String CrawlResult`); sleeps are recorded in
traces rather than performed.
-/

namespace Crawler

/-! ## String helpers shared by both source files -/

/-- Substring containment on character lists: does the needle occur
contiguously inside the haystack? Models Python's `needle in haystack`. -/
def subInfix (needle : List Char) : List Char → Bool
  | [] => needle.isEmpty
  | c :: rest => needle.isPrefixOf (c :: rest) || subInfix needle rest

/-- Python's `needle in hay` on strings. -/
def strContains (hay needle : String) : Bool :=
  subInfix needle.toList hay.toList

/-- Maximal whitespace-free words of a character list (the accumulator
holds the current word, reversed). -/
def wordsAux : List Char → List Char → List (List Char)
  | [], acc => if acc.isEmpty then [] else [acc.reverse]
  | c :: rest, acc =>
    if c.isWhitespace then
      if acc.isEmpty then wordsAux rest [] else acc.reverse :: wordsAux rest []
    else wordsAux rest (c :: acc)

/-- Join words with single spaces. -/
def joinSpace : List (List Char) → List Char
  | [] => []
  | [w] => w
  | w :: ws => w ++ ' ' :: joinSpace ws

/-- `clean_text` from `src/main.py` (lines 89–94):
`re.sub(r'\s+', ' ', text.strip())` — trim the ends and collapse every run
of whitespace to a single space. -/
def clean_text (s : String) : String :=
  String.mk (joinSpace (wordsAux s.data []))

/-- Python `str.lower()` for the (ASCII) texts modelled here. -/
def pyLower (s : String) : String :=
  String.mk (s.data.map Char.toLower)

/-- Python `str.strip()`: remove leading and trailing whitespace. -/
def pyStrip (s : String) : String :=
  String.mk (((s.data.dropWhile Char.isWhitespace).reverse.dropWhile
    Char.isWhitespace).reverse)

/-- Python `text.split('\x0a')`: split on newline characters, keeping
empty segments. -/
def splitLinesAux : List Char → List Char → List String
  | [], acc => [String.mk acc.reverse]
  | c :: rest, acc =>
    if c = '\n' then String.mk acc.reverse :: splitLinesAux rest []
    else splitLinesAux rest (c :: acc)

def splitLines (s : String) : List String :=
  splitLinesAux s.data []

/-! ## HTML document model

`src/main.py` parses pages with BeautifulSoup and uses only: tag names,
`get_text()`, `find_all` (by tag-name predicate / by tag list / with
`href=True`), `find_next()` (document-order successor), and `select` with
a fixed set of `tag.class` / `.class` selectors. A document is a list of
top-level nodes; an element node carries its tag, its `class` attribute
values, its `href` attribute (for anchors) and its children. -/

inductive Node where
  | txt (s : String) : Node
  | elem (tag : String) (classes : List String) (href : Option String)
      (children : List Node) : Node

abbrev Doc := List Node

/-- Tag name of a node (`Tag.name` in BeautifulSoup); text nodes have none. -/
def Node.tag : Node → String
  | .txt _ => ""
  | .elem t _ _ _ => t

/-- `class` attribute values of a node. -/
def Node.classes : Node → List String
  | .txt _ => []
  | .elem _ cs _ _ => cs

/-- `href` attribute of a node. -/
def Node.href : Node → Option String
  | .txt _ => none
  | .elem _ _ h _ => h

mutual
/-- BeautifulSoup `get_text()`: concatenation of all descendant strings in
document order. -/
def Node.getText : Node → String
  | .txt s => s
  | .elem _ _ _ children => Node.getTextList children
def Node.getTextList : List Node → String
  | [] => ""
  | c :: cs => Node.getText c ++ Node.getTextList cs
end

mutual
/-- Document-order (preorder) list of all element nodes of a node,
including the node itself when it is an element. `find_next()` from an
element walks the remainder of this list. -/
def Node.preorder : Node → List Node
  | .txt _ => []
  | .elem t cs h children => .elem t cs h children :: Node.preorderList children
def Node.preorderList : List Node → List Node
  | [] => []
  | c :: cs => Node.preorder c ++ Node.preorderList cs
end

/-- Element descendants of a node, excluding the node itself: the search
space of `element.find_all(...)`. -/
def Node.descendants : Node → List Node
  | .txt _ => []
  | .elem _ _ _ children => Node.preorderList children

/-! ## `extract_details` (`src/main.py`, lines 69–220) -/

/-- Is the tag one of the heading tags the code looks for. -/
def isHeaderTag (t : String) : Bool :=
  t = "h1" || t = "h2" || t = "h3" || t = "h4"

/-- Is the tag one of the content tags `extract_section_text` collects. -/
def isContentTag (t : String) : Bool :=
  t = "p" || t = "li" || t = "div"

/-- Loop body of `extract_section_text` (`src/main.py`, lines 97–111): walk
the elements after the section header in document order, collecting cleaned
text of `p`/`li`/`div` elements longer than 15 characters, stopping at
another heading once at least one item has been collected or when
`max_elements` items have been collected. -/
def extract_section_text_go (max_elements : Nat) :
    List Node → List String → Nat → List String
  | [], texts, _ => texts
  | cur :: rest, texts, count =>
    if count < max_elements ∧ ¬(isHeaderTag cur.tag ∧ 0 < texts.length) then
      if isContentTag cur.tag ∧ clean_text cur.getText ≠ "" then
        let text := clean_text cur.getText
        if text ≠ "" ∧ 15 < text.length then
          extract_section_text_go max_elements rest (texts ++ [text]) (count + 1)
        else
          extract_section_text_go max_elements rest texts count
      else
        extract_section_text_go max_elements rest texts count
    else
      texts

/-- `extract_section_text(section_elem, max_elements)`: `after` is the list
of elements following the section header in document order
(`find_next()` successors). -/
def extract_section_text (after : List Node) (max_elements : Nat := 5) : List String :=
  extract_section_text_go max_elements after [] 0

/-- The header predicate used with `soup.find_all` (e.g. lines 119–120):
a heading tag whose text contains the keyword, lowercased. -/
def headerMatches (kw : String) (n : Node) : Bool :=
  isHeaderTag n.tag && strContains (pyLower n.getText) kw

/-- Positions (in the document preorder) of the headings matching a keyword. -/
def findHeaderIdxs (pre : List Node) (kw : String) : List (Nat × Node) :=
  pre.enum.filter (fun p => headerMatches kw p.2)

/-- Header-keyword scan for one category (strategy 1): collect headers for
each keyword in order, then extend the result with each header's section
text (lines 118–127 / 143–152 / 168–177). -/
def headerSections (pre : List Node) (keywords : List String) (max_elements : Nat) :
    List String :=
  ((keywords.map (findHeaderIdxs pre)).flatten).foldl
    (fun acc p => acc ++ extract_section_text (pre.drop (p.1 + 1)) max_elements) []

/-- `text and text not in acc` guarded append used by the selector scans. -/
def appendNew (acc : List String) (text : String) : List String :=
  if text ≠ "" ∧ text ∉ acc then acc ++ [text] else acc

/-- `soup.select(sel)`: document-order elements matching the selector. -/
def selectElems (doc : Doc) (sel : Node → Bool) : List Node :=
  (Node.preorderList doc).filter sel

/-- Selector `'ul.programs, ul.courses, .program-list, .course-listing, .majors-list'`
(line 130). -/
def isCourseListSel (n : Node) : Bool :=
  (n.tag = "ul" && n.classes.contains "programs") ||
  (n.tag = "ul" && n.classes.contains "courses") ||
  n.classes.contains "program-list" ||
  n.classes.contains "course-listing" ||
  n.classes.contains "majors-list"

/-- Selector `'ul.requirements, .admission-details, .admission-requirements, .eligibility-criteria'`
(line 155). -/
def isReqListSel (n : Node) : Bool :=
  (n.tag = "ul" && n.classes.contains "requirements") ||
  n.classes.contains "admission-details" ||
  n.classes.contains "admission-requirements" ||
  n.classes.contains "eligibility-criteria"

/-- Selector `'table.dates, table.deadlines, .date-table, .calendar-table'`
(line 180). -/
def isDateTableSel (n : Node) : Bool :=
  (n.tag = "table" && n.classes.contains "dates") ||
  (n.tag = "table" && n.classes.contains "deadlines") ||
  n.classes.contains "date-table" ||
  n.classes.contains "calendar-table"

/-- Cleaned text of the `li` descendants of a list container (lines 132–134). -/
def liTexts (container : Node) : List String :=
  (container.descendants.filter (fun n => n.tag = "li")).map
    (fun n => clean_text n.getText)

/-- Date-table row texts (lines 181–188): skip the header row, and for each
row with at least two `td`/`th` cells join the cell texts with `" - "`. -/
def tableRowTexts (table : Node) : List String :=
  ((table.descendants.filter (fun n => n.tag = "tr")).drop 1).filterMap
    (fun row =>
      let cells := row.descendants.filter (fun n => n.tag = "td" || n.tag = "th")
      if 2 ≤ cells.length then
        some (clean_text (" - ".intercalate (cells.map Node.getText)))
      else none)

/-- Month names of the date regex at line 191, lowercased (the regex runs
with `re.IGNORECASE`). -/
def monthNamesLower : List String :=
  ["january", "february", "march", "april", "may", "june", "july",
   "august", "september", "october", "november", "december"]

/-- After at least one whitespace character, skip further whitespace until a
digit: the tail `\s+\d` of the date regex. -/
def wsThenDigit : List Char → Bool
  | [] => false
  | c :: rest =>
    if c.isDigit then true
    else if c.isWhitespace then wsThenDigit rest
    else false

/-- `\s+` followed by a digit. -/
def wsDigit : List Char → Bool
  | [] => false
  | c :: rest => c.isWhitespace && wsThenDigit rest

/-- Does the date regex match at this position: a month name, whitespace,
then a digit (`\d{1,2}` matches as soon as one digit is present). -/
def datePatAt (l : List Char) : Bool :=
  monthNamesLower.any (fun m =>
    m.toList.isPrefixOf l && wsDigit (l.drop m.toList.length))

/-- Does the predicate hold for some suffix of the list. -/
def anySuffix (p : List Char → Bool) : List Char → Bool
  | [] => p []
  | c :: t => p (c :: t) || anySuffix p t

/-- `re.search(date_pattern, text, re.IGNORECASE)` as a Boolean. -/
def hasDatePattern (s : String) : Bool :=
  anySuffix datePatAt (pyLower s).data

/-- The paragraph filter of the deadline pattern scan (lines 192–195). -/
def deadlineParaMatch (n : Node) : Bool :=
  (["deadline", "due date", "application"].any
    (fun kw => strContains (pyLower n.getText) kw))
  && hasDatePattern n.getText

/-- Models `urllib.parse.urljoin(base, href)` shallowly for the cases this
pipeline exercises: an `href` that already carries a scheme is returned
unchanged, otherwise it is resolved against the base by concatenation. -/
def urljoin (base href : String) : String :=
  if "http://".data.isPrefixOf href.data || "https://".data.isPrefixOf href.data then href
  else base ++ href

/-- Anchor keywords of the link-follow fallback (line 206). -/
def linkKeywords : List String := ["admission", "apply", "course", "program"]

/-- The link-follow fallback's link collection (lines 203–209):
`(link_text, absolute url)` for every anchor with an `href` whose text
contains an admissions keyword. -/
def admissionLinks (doc : Doc) (university_url : String) : List (String × String) :=
  ((Node.preorderList doc).filter (fun n => n.tag = "a" && n.href.isSome)).filterMap
    (fun a =>
      let link_text := pyLower a.getText
      if linkKeywords.any (fun kw => strContains link_text kw) then
        some (link_text, urljoin university_url (a.href.getD ""))
      else none)

/-- The `result` dict of `extract_details` as it stands at line 215, with
`follow_links` as an (empty-when-absent) list. -/
structure DetailResult where
  courses : List String
  requirements : List String
  deadlines : List String
  follow_links : List (String × String)
deriving Repr, DecidableEq

def course_keywords : List String :=
  ["course", "program", "degree", "major", "academic"]

def req_keywords : List String :=
  ["requirement", "admission", "prerequisite", "qualification", "eligibility", "criteria"]

def deadline_keywords : List String :=
  ["deadline", "important date", "application date", "due date", "submission", "calendar"]

/-- The body of `extract_details` (`src/main.py`, lines 82–213): each
category's strategies run in source order, each later strategy appending to
the category list accumulated so far. -/
def extract_details_result (doc : Doc) (university_url : String) : DetailResult :=
  let pre := Node.preorderList doc
  -- 1. Course information extraction (headers, lines 113–127)
  let courses1 := headerSections pre course_keywords 5
  -- course/program lists (lines 129–136)
  let courses2 := ((selectElems doc isCourseListSel).map liTexts).flatten.foldl appendNew courses1
  -- 2. Admissions requirements extraction (lines 138–152)
  let reqs1 := headerSections pre req_keywords 5
  -- requirement lists (lines 154–161)
  let reqs2 := ((selectElems doc isReqListSel).map liTexts).flatten.foldl appendNew reqs1
  -- 3. Application deadline extraction (lines 163–177), deadlines capped at 3
  let deads1 := headerSections pre deadline_keywords 3
  -- date tables (lines 179–188)
  let deads2 := ((selectElems doc isDateTableSel).map tableRowTexts).flatten.foldl appendNew deads1
  -- date-pattern paragraphs (lines 190–198)
  let deads3 :=
    (((pre.filter (fun n => n.tag = "p")).filter deadlineParaMatch).map
      (fun p => clean_text p.getText)).foldl appendNew deads2
  -- 4. link-follow fallback (lines 200–213)
  let links :=
    if courses2 = [] ∧ reqs2 = [] ∧ deads3 = [] then
      admissionLinks doc university_url
    else []
  { courses := courses2, requirements := reqs2, deadlines := deads3, follow_links := links }

/-- `extract_details` return value (lines 215–220): the three category
lists with the `["Not found"]` sentinel substituted for an empty list. The
`follow_links` entry of the internal dict is not part of the return value. -/
def extract_details (doc : Doc) (university_url : String) :
    List String × List String × List String :=
  let r := extract_details_result doc university_url
  (if r.courses = [] then ["Not found"] else r.courses,
   if r.requirements = [] then ["Not found"] else r.requirements,
   if r.deadlines = [] then ["Not found"] else r.deadlines)

/-! ## `fetch_html` (`src/main.py`, lines 27–67)

The network is an oracle assigning each attempt number the event the
`session.get` of that attempt produces: an HTTP status, a timeout, or
another transport error. The embedding records the outcome, the number of
attempts performed, and the sequence of backoff sleeps (in seconds). -/

/-- What one fetch attempt observes on the wire. -/
inductive HttpEvent where
  | status (code : Nat) : HttpEvent
  | timeout : HttpEvent
  | netError : HttpEvent
deriving Repr, DecidableEq

/-- Outcome of `fetch_html`: a 200 body (`Success`), an immediate
non-retryable failure via the early `return None` at line 57
(`HardFailure`), or falling off the retry loop at line 67
(exhausted `SoftFailure`). -/
inductive FetchOutcome where
  | success : FetchOutcome
  | hardFailure : FetchOutcome
  | exhausted : FetchOutcome
deriving Repr, DecidableEq

structure FetchTrace where
  outcome : FetchOutcome
  attempts : Nat
  sleeps : List Nat
deriving Repr, DecidableEq

/-- The retry loop of `fetch_html`, from attempt number `attempt` with
`remaining` loop iterations left. -/
def fetch_go (events : Nat → HttpEvent) (attempt : Nat) : Nat → FetchTrace
  | 0 => ⟨.exhausted, 0, []⟩
  | remaining + 1 =>
    match events attempt with
    | .status code =>
      if code = 200 then ⟨.success, 1, []⟩
      else if code = 403 ∨ code = 429 then
        -- rate limiting: incremental backoff (attempt+1)*5, then retry
        let t := fetch_go events (attempt + 1) remaining
        ⟨t.outcome, t.attempts + 1, (attempt + 1) * 5 :: t.sleeps⟩
      else if code < 500 ∨ 600 ≤ code then
        -- only retry on server errors (5xx); anything else returns None now
        ⟨.hardFailure, 1, []⟩
      else
        let t := fetch_go events (attempt + 1) remaining
        ⟨t.outcome, t.attempts + 1, 2 * (attempt + 1) :: t.sleeps⟩
    | .timeout =>
      let t := fetch_go events (attempt + 1) remaining
      ⟨t.outcome, t.attempts + 1, 2 :: t.sleeps⟩
    | .netError =>
      let t := fetch_go events (attempt + 1) remaining
      ⟨t.outcome, t.attempts + 1, 1 :: t.sleeps⟩

/-- `fetch_html(session, url, retry_count=3)` against a given event oracle. -/
def fetch_html (events : Nat → HttpEvent) (retry_count : Nat := 3) : FetchTrace :=
  fetch_go events 0 retry_count

/-! ## `structured_extraction` (`src/main.py`, lines 222–277) -/

structure Target where
  name : String
  url : String
deriving Repr, DecidableEq

/-- One output record of `structured_extraction`. The `scraped_at`
wall-clock timestamp is an external effect and is not modelled. -/
structure URecord where
  name : String
  url : String
  courses : List String
  admissions_requirements : List String
  application_deadlines : List String
deriving Repr, DecidableEq

/-- `getattr(courses, "follow_links", None)` at line 245: `courses` is a
plain Python list, and lists carry no `follow_links` attribute, so the
default `None` is returned on every call. -/
def getattrFollowLinks (_courses : List String) : Option (List (String × String)) :=
  none

/-- The secondary-link loop (lines 247–262): fetch each link, re-extract,
and replace any category whose secondary result is non-sentinel. Returns
the updated categories and the list of secondary URLs fetched. -/
def followLinksLoop (fetch : String → Option Doc) :
    List (String × String) → List String × List String × List String →
    (List String × List String × List String) × List String
  | [], cats => (cats, [])
  | (_link_text, link_url) :: rest, (courses, requirements, deadlines) =>
    match fetch link_url with
    | none =>
      let (cats, tr) := followLinksLoop fetch rest (courses, requirements, deadlines)
      (cats, link_url :: tr)
    | some sdoc =>
      let (sec_courses, sec_requirements, sec_deadlines) := extract_details sdoc link_url
      let courses := if sec_courses ≠ [] ∧ sec_courses.head? ≠ some "Not found" then sec_courses else courses
      let requirements := if sec_requirements ≠ [] ∧ sec_requirements.head? ≠ some "Not found" then sec_requirements else requirements
      let deadlines := if sec_deadlines ≠ [] ∧ sec_deadlines.head? ≠ some "Not found" then sec_deadlines else deadlines
      let (cats, tr) := followLinksLoop fetch rest (courses, requirements, deadlines)
      (cats, link_url :: tr)

/-- `structured_extraction(universities)` with the fetch as an oracle
(`none` models `fetch_html` returning `None`), instrumented with the list
of URLs fetched, in fetch order. A target whose fetch yields `None` is
skipped (`continue` at line 237) — no record is appended for it. -/
def structured_extractionT (fetch : String → Option Doc) :
    List Target → List URecord × List String
  | [] => ([], [])
  | uni :: rest =>
    match fetch uni.url with
    | none =>
      let (recs, tr) := structured_extractionT fetch rest
      (recs, uni.url :: tr)
    | some doc =>
      let (courses, requirements, deadlines) := extract_details doc uni.url
      let (cats, ftrace) :=
        if courses.length = 1 ∧ courses.head? = some "Not found" then
          match getattrFollowLinks courses with
          | some follow_links =>
            followLinksLoop fetch (follow_links.take 2) (courses, requirements, deadlines)
          | none => ((courses, requirements, deadlines), [])
        else ((courses, requirements, deadlines), [])
      let (recs, tr) := structured_extractionT fetch rest
      ({ name := uni.name, url := uni.url, courses := cats.1,
         admissions_requirements := cats.2.1, application_deadlines := cats.2.2 } :: recs,
       uni.url :: (ftrace ++ tr))

/-- The output collection of `structured_extraction`. -/
def structured_extraction (fetch : String → Option Doc) (universities : List Target) :
    List URecord :=
  (structured_extractionT fetch universities).1

/-- The URLs fetched during a run of `structured_extraction`, in order. -/
def structured_extraction_fetched (fetch : String → Option Doc)
    (universities : List Target) : List String :=
  (structured_extractionT fetch universities).2

/-! ## `extract_university_data` (`src/main_ci.py`, lines 172–387)

The crawl4ai call `crawler.arun(url=..., config=run_config_css)` is an
external effect: it is modelled as an oracle
`crawl : String → Except String CrawlResult` (`.error` models the call
raising, carrying `str(e)`). `CrawlResult.extracted_content` is `some`
exactly when the Python value is a truthy `dict` (lines 277, 290);
`CrawlResult.markdown` is the markdown text the code would select at lines
330–336, `none` when absent or falsy. -/

structure Extracted where
  courses : Option (List String) := none
  course_descriptions : Option (List String) := none
  admissions_requirements : Option (List String) := none
  application_deadlines : Option (List String) := none
  early_admission : Option (List String) := none
  regular_admission : Option (List String) := none
deriving Repr, DecidableEq

structure CrawlResult where
  extracted_content : Option Extracted
  markdown : Option String
deriving Repr, DecidableEq

/-- One output record of `extract_university_data`; `scraped_at` is an
external wall-clock effect and is not modelled. -/
structure CIRecord where
  name : String
  url : String
  courses : List String
  course_descriptions : List String
  admissions_requirements : List String
  application_deadlines : List String
  early_admission : List String
  regular_admission : List String
  error : Option String := none
deriving Repr, DecidableEq

/-- The duplicate-removal loop of the additional-page merge
(`src/main_ci.py`, lines 296–304): keep an item when its stripped form
(Python `str(item).strip()`, modelled as `pyStrip`) is non-empty, not
yet seen, and neither `"None"` nor `"Not found"`; the original (unstripped)
item is what gets appended. -/
def merge_dedup (seen : List String) : List String → List String
  | [] => []
  | item :: rest =>
    let item_str := pyStrip item
    if item_str ≠ "" ∧ item_str ∉ seen ∧ item_str ≠ "None" ∧ item_str ≠ "Not found" then
      item :: merge_dedup (item_str :: seen) rest
    else
      merge_dedup seen rest

/-- Merging one category across pages (line 295 followed by the dedup
loop): `combined = extracted[key] + value`, then deduplicate. -/
def merge_category (primary secondary : List String) : List String :=
  merge_dedup [] (primary ++ secondary)

/-- Per-key update of the additional-page merge loop (lines 292–306): a key
present in the secondary dict either merges with the present primary list
or, when the key is absent from the primary, is copied over. -/
def mergeField (base add : Option (List String)) : Option (List String) :=
  match add with
  | none => base
  | some v =>
    match base with
    | some bv => some (merge_category bv v)
    | none => some v

def mergeExtracted (extracted add : Extracted) : Extracted :=
  { courses := mergeField extracted.courses add.courses,
    course_descriptions := mergeField extracted.course_descriptions add.course_descriptions,
    admissions_requirements := mergeField extracted.admissions_requirements add.admissions_requirements,
    application_deadlines := mergeField extracted.application_deadlines add.application_deadlines,
    early_admission := mergeField extracted.early_admission add.early_admission,
    regular_admission := mergeField extracted.regular_admission add.regular_admission }

/-- The Harvard-only additional pages (lines 258–268). -/
def harvardPages : List String :=
  ["https://college.harvard.edu/academics/fields-study",
   "https://college.harvard.edu/admissions/apply",
   "https://college.harvard.edu/admissions/apply/first-year-applicants",
   "https://college.harvard.edu/academics/liberal-arts-sciences/concentrations",
   "https://college.harvard.edu/academics/liberal-arts-sciences",
   "https://college.harvard.edu/admissions/why-harvard/academic-environment",
   "https://college.harvard.edu/admissions/admissions-statistics",
   "https://college.harvard.edu/admissions/why-harvard/affordability"]

def additionalPages (url : String) : List String :=
  if strContains (pyLower url) "harvard" then harvardPages else []

/-- The `data` dict formed at lines 315–325: `dict.get(key, ["Not found"])`
substitutes the sentinel only when the key is absent — a present empty list
is returned as-is. -/
def dataOf (uni : Target) (extracted : Extracted) : CIRecord :=
  { name := uni.name, url := uni.url,
    courses := extracted.courses.getD ["Not found"],
    course_descriptions := extracted.course_descriptions.getD ["Not found"],
    admissions_requirements := extracted.admissions_requirements.getD ["Not found"],
    application_deadlines := extracted.application_deadlines.getD ["Not found"],
    early_admission := extracted.early_admission.getD ["Not found"],
    regular_admission := extracted.regular_admission.getD ["Not found"],
    error := none }

/-- Line 328: `all(data[key][0] == "Not found" for key in [...])`. The
generator is evaluated lazily and in order; `data[key][0]` on an empty
list raises `IndexError`, which the enclosing `try` converts into the
error-record path. -/
def sentinelCheck (data : CIRecord) : Except String Bool :=
  match data.courses with
  | [] => .error "IndexError: list index out of range"
  | c :: _ =>
    if c ≠ "Not found" then .ok false
    else
      match data.admissions_requirements with
      | [] => .error "IndexError: list index out of range"
      | r :: _ =>
        if r ≠ "Not found" then .ok false
        else
          match data.application_deadlines with
          | [] => .error "IndexError: list index out of range"
          | d :: _ => .ok (d == "Not found")

/-- Markdown-fallback keyword sets (lines 342–368). -/
def fb_course_kws : List String :=
  ["degree", "course", "program", "major", "bachelor", "master", "phd",
   "concentration", "field of study"]

def fb_desc_kws : List String :=
  ["program", "study", "academic", "field", "course", "concentration"]

def fb_req_kws : List String :=
  ["requirement", "admission", "prerequisite", "qualify", "eligibility",
   "gpa", "test score", "application process"]

def fb_deadline_kws : List String :=
  ["deadline", "date", "application period", "apply by", "due by",
   "submit by", "timeline"]

def fb_early_kws : List String :=
  ["early action", "early decision", "early admission", "november", "december"]

def fb_regular_kws : List String :=
  ["regular decision", "regular admission", "january", "february", "march", "april"]

/-- `[line.strip() for line in lines if any(kw in line.lower() for kw in kws)]`. -/
def kwLines (kws : List String) (lines : List String) : List String :=
  (lines.filter (fun line => kws.any (fun kw => strContains (pyLower line) kw))).map
    pyStrip

/-- The course-description line filter additionally requires the stripped
line to exceed 80 characters (line 347). -/
def descLines (lines : List String) : List String :=
  (lines.filter (fun line =>
      80 < (pyStrip line).length ∧ fb_desc_kws.any (fun kw => strContains (pyLower line) kw))).map
    pyStrip

/-- The markdown last-resort extraction (lines 338–370), applied to `data`. -/
def applyFallback (data : CIRecord) (markdown_text : String) : CIRecord :=
  let markdown_lines := splitLines markdown_text
  let course_lines := kwLines fb_course_kws markdown_lines
  let data := if course_lines ≠ [] then { data with courses := course_lines.take 10 } else data
  let description_lines := descLines markdown_lines
  let data := if description_lines ≠ [] then { data with course_descriptions := description_lines.take 10 } else data
  let req_lines := kwLines fb_req_kws markdown_lines
  let data := if req_lines ≠ [] then { data with admissions_requirements := req_lines.take 10 } else data
  let deadline_lines := kwLines fb_deadline_kws markdown_lines
  let data := if deadline_lines ≠ [] then { data with application_deadlines := deadline_lines.take 10 } else data
  let early_lines := kwLines fb_early_kws markdown_lines
  let data := if early_lines ≠ [] then { data with early_admission := early_lines.take 5 } else data
  let regular_lines := kwLines fb_regular_kws markdown_lines
  if regular_lines ≠ [] then { data with regular_admission := regular_lines.take 5 } else data

/-- Lines 328–370 as one stage: run the all-sentinel check (which may
raise), and only when it holds and markdown text is available apply the
markdown fallback. -/
def fallbackStage (data : CIRecord) (markdown : Option String) : Except String CIRecord := do
  let allSentinel ← sentinelCheck data
  if allSentinel then
    match markdown with
    | some markdown_text =>
      if markdown_text ≠ "" then pure (applyFallback data markdown_text)
      else pure data
    | none => pure data
  else
    pure data

/-- The `try` body of `extract_university_data` (lines 270–373). -/
def extract_body (crawl : String → Except String CrawlResult) (uni : Target) :
    Except String CIRecord := do
  let result ← crawl uni.url
  let extracted :=
    match result.extracted_content with
    | some d => d
    | none => {}
  -- additional pages (lines 283–312); a failing crawl is caught and skipped
  let extracted := (additionalPages uni.url).foldl
    (fun acc add_url =>
      match crawl add_url with
      | .error _ => acc
      | .ok ar =>
        match ar.extracted_content with
        | some d => mergeExtracted acc d
        | none => acc)
    extracted
  let data := dataOf uni extracted
  fallbackStage data result.markdown

/-- The `except` branch of `extract_university_data` (lines 374–387). -/
def sentinelRecord (uni : Target) (e : String) : CIRecord :=
  { name := uni.name, url := uni.url,
    courses := ["Not found"], course_descriptions := ["Not found"],
    admissions_requirements := ["Not found"], application_deadlines := ["Not found"],
    early_admission := ["Not found"], regular_admission := ["Not found"],
    error := some e }

def extract_university_data (crawl : String → Except String CrawlResult)
    (uni : Target) : CIRecord :=
  match extract_body crawl uni with
  | .ok data => data
  | .error e => sentinelRecord uni e

/-! ## `process_universities` (`src/main_ci.py`, lines 389–426) -/

/-- The batch slicing `universities[i:i+max_tasks]` for
`i in range(0, len(universities), max_tasks)`. Faithful for `n ≥ 1`; the
code only calls this with `max_tasks = min(1, len(universities))`, and for
an empty input list no batch is formed. -/
def toBatches (n : Nat) : List α → List (List α)
  | [] => []
  | x :: rest => (x :: rest.take (n - 1)) :: toBatches n (rest.drop (n - 1))
termination_by xs => xs.length
decreasing_by simp [List.length_drop]; omega

/-- The batch loop of `process_universities`: `asyncio.gather` returns the
batch's results in task order, and the batches are extended onto `results`
in input order. -/
def process_batches (crawl : String → Except String CrawlResult) (max_tasks : Nat)
    (universities : List Target) : List CIRecord :=
  ((toBatches max_tasks universities).map
    (fun batch => batch.map (extract_university_data crawl))).flatten

/-- `process_universities` with the code's `max_tasks = min(1, len(...))`. -/
def process_universities (crawl : String → Except String CrawlResult)
    (universities : List Target) : List CIRecord :=
  process_batches crawl (min 1 universities.length) universities

/-! ## Standalone strategy scans

These restate, as independent definitions, what each strategy of the
cascade computes on its own; the theorems below compare them with what
`extract_details` actually produces. -/

/-- Strategy 1 alone for the courses category: the header-keyword scan. -/
def strategy1_courses (doc : Doc) : List String :=
  headerSections (Node.preorderList doc) course_keywords 5

/-- Strategy 2's raw item texts for the courses category: the `li` texts of
the curated course-list selectors, in document order. -/
def strategy2_course_items (doc : Doc) : List String :=
  ((selectElems doc isCourseListSel).map liTexts).flatten

/-! ## Concrete inputs used by the theorems -/

/-- A page where strategy 1 (header scan) and strategy 2 (curated
selectors) both find a course item: a `ul.programs` list appears before a
course heading that is followed by a paragraph. -/
def docBlend : Doc :=
  [ .elem "ul" ["programs"] none [.elem "li" [] none [.txt "Bachelor of Fine Arts program"]],
    .elem "h2" [] none [.txt "Course offerings"],
    .elem "p" [] none [.txt "Introductory mathematics sequence"] ]

/-- A page whose single heading contains two course keywords
(`course` and `program`), followed by one long paragraph. -/
def docTwoKeywords : Doc :=
  [ .elem "h2" [] none [.txt "Courses and Programs"],
    .elem "p" [] none [.txt "We offer many excellent degree options."] ]

/-- A course heading followed by a paragraph whose cleaned text has exactly
15 characters. -/
def docLen15 : Doc :=
  [ .elem "h2" [] none [.txt "Course information"],
    .elem "p" [] none [.txt "ABCDEFGHIJKLMNO"] ]

/-- A course heading followed by a paragraph whose cleaned text has exactly
16 characters. -/
def docLen16 : Doc :=
  [ .elem "h2" [] none [.txt "Course information"],
    .elem "p" [] none [.txt "ABCDEFGHIJKLMNOP"] ]

/-- A page with no extractable category content but with an admissions
anchor: the link-follow fallback fires. -/
def docLinksOnly : Doc :=
  [ .elem "p" [] none [.txt "Welcome to our lovely campus."],
    .elem "a" [] (some "https://u.edu/admissions") [.txt "Admissions"] ]

/-- A secondary page that does carry course content, reachable at the
admissions link of `docLinksOnly`. -/
def docSecondary : Doc :=
  [ .elem "h2" [] none [.txt "Course catalog"],
    .elem "p" [] none [.txt "Full course listings for every term."] ]

/-- Fetch oracle for the link-follow scenario: the primary URL serves
`docLinksOnly` and every other URL (in particular the admissions link)
serves `docSecondary`. -/
def fetchLinksOnly : String → Option Doc := fun u =>
  if u = "https://u.edu" then some docLinksOnly else some docSecondary

def targetLinksOnly : Target := { name := "U", url := "https://u.edu" }

/-- A crawl oracle whose CSS extraction found a course but zero
requirement items: the `admissions_requirements` key is present and maps
to the empty list. -/
def crawlEmptyReq : String → Except String CrawlResult := fun _ =>
  .ok { extracted_content := some
          { courses := some ["Introduction to Computer Science"],
            admissions_requirements := some [],
            application_deadlines := some ["May 1 for fall"] },
        markdown := none }

def targetExample : Target := { name := "Example U", url := "https://example.edu" }

/-- The `seen` set as it stands after the dedup loop has consumed `L`. -/
def seenAfter (seen : List String) : List String → List String
  | [] => seen
  | item :: rest =>
    let item_str := pyStrip item
    if item_str ≠ "" ∧ item_str ∉ seen ∧ item_str ≠ "None" ∧ item_str ≠ "Not found" then
      seenAfter (item_str :: seen) rest
    else
      seenAfter seen rest

/-- A record whose CSS extraction already found a course item, used to
exercise the fallback stage. -/
def recWithCourses : CIRecord :=
  { name := "U", url := "https://u.edu",
    courses := ["Course list for the spring term"],
    course_descriptions := ["Not found"],
    admissions_requirements := ["Not found"],
    application_deadlines := ["Not found"],
    early_admission := ["Not found"],
    regular_admission := ["Not found"],
    error := none }

/-! ## Helper lemmas -/

/-- The batch slicing partitions the input: flattening the batches gives
the input list back. -/
theorem toBatches_flatten (n : Nat) : (xs : List α) → (toBatches n xs).flatten = xs
  | [] => by simp [toBatches]
  | x :: rest => by
    rw [toBatches]
    simp only [List.flatten_cons]
    rw [toBatches_flatten n (rest.drop (n - 1))]
    simp
termination_by xs => xs.length
decreasing_by simp [List.length_drop]; omega

/-- Batched processing is the pointwise map over the input list. -/
theorem process_batches_eq_map (crawl : String → Except String CrawlResult)
    (n : Nat) (ts : List Target) :
    process_batches crawl n ts = ts.map (extract_university_data crawl) := by
  unfold process_batches
  rw [← List.map_flatten, toBatches_flatten]

/-- The dedup loop only consults `seen` through membership. -/
theorem merge_dedup_congr : (M : List String) → (s₁ s₂ : List String) →
    (∀ k, k ∈ s₁ ↔ k ∈ s₂) → merge_dedup s₁ M = merge_dedup s₂ M
  | [], _, _, _ => rfl
  | item :: rest, s₁, s₂, h => by
    simp only [merge_dedup]
    by_cases hc : pyStrip item ≠ "" ∧ pyStrip item ∉ s₁ ∧ pyStrip item ≠ "None" ∧
        pyStrip item ≠ "Not found"
    · rw [if_pos hc, if_pos ⟨hc.1, fun hm => hc.2.1 ((h _).mpr hm), hc.2.2⟩,
        merge_dedup_congr rest (pyStrip item :: s₁) (pyStrip item :: s₂)
          (fun k => by simp [h k])]
    · rw [if_neg hc, if_neg (fun hc2 =>
        hc ⟨hc2.1, fun hm => hc2.2.1 ((h _).mp hm), hc2.2.2⟩),
        merge_dedup_congr rest s₁ s₂ h]

/-- `seen` only grows during the dedup loop. -/
theorem seenAfter_mono : (L : List String) → (seen : List String) → (k : String) →
    k ∈ seen → k ∈ seenAfter seen L
  | [], _, _, hk => hk
  | item :: rest, seen, k, hk => by
    simp only [seenAfter]
    by_cases hc : pyStrip item ≠ "" ∧ pyStrip item ∉ seen ∧ pyStrip item ≠ "None" ∧
        pyStrip item ≠ "Not found"
    · rw [if_pos hc]
      exact seenAfter_mono rest _ k (List.mem_cons_of_mem _ hk)
    · rw [if_neg hc]
      exact seenAfter_mono rest seen k hk

/-- After the loop has consumed `L`, every element of `L` is either a
placeholder or has its trimmed form recorded in `seen`. -/
theorem seenAfter_covers : (L : List String) → (seen : List String) → (x : String) →
    x ∈ L →
    (pyStrip x = "" ∨ pyStrip x = "None" ∨ pyStrip x = "Not found") ∨ pyStrip x ∈ seenAfter seen L
  | [], _, _, hx => absurd hx (List.not_mem_nil _)
  | item :: rest, seen, x, hx => by
    rcases List.mem_cons.mp hx with hx | hx
    · subst hx
      by_cases hc : pyStrip x ≠ "" ∧ pyStrip x ∉ seen ∧ pyStrip x ≠ "None" ∧ pyStrip x ≠ "Not found"
      · right
        simp only [seenAfter, if_pos hc]
        exact seenAfter_mono rest _ _ (List.mem_cons_self _ _)
      · by_cases h1 : pyStrip x = ""
        · exact Or.inl (Or.inl h1)
        · by_cases h3 : pyStrip x = "None"
          · exact Or.inl (Or.inr (Or.inl h3))
          · by_cases h4 : pyStrip x = "Not found"
            · exact Or.inl (Or.inr (Or.inr h4))
            · right
              have h2 : pyStrip x ∈ seen := by
                by_contra h2
                exact hc ⟨h1, h2, h3, h4⟩
              simp only [seenAfter, if_neg hc]
              exact seenAfter_mono rest seen _ h2
    · by_cases hc : pyStrip item ≠ "" ∧ pyStrip item ∉ seen ∧ pyStrip item ≠ "None" ∧
          pyStrip item ≠ "Not found"
      · simpa only [seenAfter, if_pos hc] using seenAfter_covers rest _ x hx
      · simpa only [seenAfter, if_neg hc] using seenAfter_covers rest seen x hx

/-- The dedup loop splits over an append, threading the `seen` set. -/
theorem merge_dedup_append : (L M : List String) → (seen : List String) →
    merge_dedup seen (L ++ M) = merge_dedup seen L ++ merge_dedup (seenAfter seen L) M
  | [], M, seen => by simp [merge_dedup, seenAfter]
  | item :: rest, M, seen => by
    by_cases hc : pyStrip item ≠ "" ∧ pyStrip item ∉ seen ∧ pyStrip item ≠ "None" ∧
        pyStrip item ≠ "Not found"
    · simp only [List.cons_append, merge_dedup, seenAfter, if_pos hc, List.append_eq]
      rw [merge_dedup_append rest M (pyStrip item :: seen)]
    · simp only [List.cons_append, merge_dedup, seenAfter, if_neg hc, List.append_eq]
      rw [merge_dedup_append rest M seen]

/-- If every element of `M` is blocked (a placeholder, or already seen),
the dedup loop keeps nothing. -/
theorem merge_dedup_nil : (M : List String) → (seen : List String) →
    (∀ x ∈ M, (pyStrip x = "" ∨ pyStrip x = "None" ∨ pyStrip x = "Not found") ∨ pyStrip x ∈ seen) →
    merge_dedup seen M = []
  | [], _, _ => rfl
  | item :: rest, seen, h => by
    have hitem := h item (List.mem_cons_self _ _)
    have hc : ¬(pyStrip item ≠ "" ∧ pyStrip item ∉ seen ∧ pyStrip item ≠ "None" ∧
        pyStrip item ≠ "Not found") := by
      rcases hitem with (h1 | h1 | h1) | h1 <;> intro hc
      · exact hc.1 h1
      · exact hc.2.2.1 h1
      · exact hc.2.2.2 h1
      · exact hc.2.1 h1
    simp only [merge_dedup, if_neg hc]
    exact merge_dedup_nil rest seen (fun x hx => h x (List.mem_cons_of_mem _ hx))

/-- On a list whose trimmed elements are distinct, non-placeholder and
disjoint from `seen`, the dedup loop is the identity. -/
theorem merge_dedup_id : (L : List String) → (seen : List String) →
    (L.map pyStrip).Nodup →
    (∀ x ∈ L, pyStrip x ≠ "" ∧ pyStrip x ≠ "None" ∧ pyStrip x ≠ "Not found") →
    (∀ x ∈ L, pyStrip x ∉ seen) →
    merge_dedup seen L = L
  | [], _, _, _, _ => rfl
  | item :: rest, seen, hnd, hpl, hdisj => by
    rw [List.map_cons] at hnd
    have hnd2 := List.nodup_cons.mp hnd
    have hitem := hpl item (List.mem_cons_self _ _)
    have hc : pyStrip item ≠ "" ∧ pyStrip item ∉ seen ∧ pyStrip item ≠ "None" ∧
        pyStrip item ≠ "Not found" :=
      ⟨hitem.1, hdisj item (List.mem_cons_self _ _), hitem.2.1, hitem.2.2⟩
    simp only [merge_dedup, if_pos hc]
    rw [merge_dedup_id rest (pyStrip item :: seen) hnd2.2
      (fun x hx => hpl x (List.mem_cons_of_mem _ hx))
      (fun x hx hmem => by
        rcases List.mem_cons.mp hmem with heq | hmem2
        · exact hnd2.1 (List.mem_map.mpr ⟨x, hx, heq⟩)
        · exact hdisj x (List.mem_cons_of_mem _ hx) hmem2)]

/-- Everything the section walker collects (beyond what it started with)
has cleaned length at least 16. -/
theorem extract_section_text_go_length : (ns : List Node) → (max : Nat) →
    (texts : List String) → (count : Nat) → (s : String) →
    s ∈ extract_section_text_go max ns texts count → s ∈ texts ∨ 15 < s.length
  | [], _, _, _, _, hs => Or.inl hs
  | cur :: rest, max, texts, count, s, hs => by
    simp only [extract_section_text_go] at hs
    by_cases h1 : count < max ∧ ¬(isHeaderTag cur.tag ∧ 0 < texts.length)
    · rw [if_pos h1] at hs
      by_cases h2 : isContentTag cur.tag ∧ clean_text cur.getText ≠ ""
      · rw [if_pos h2] at hs
        by_cases h3 : clean_text cur.getText ≠ "" ∧ 15 < (clean_text cur.getText).length
        · rw [if_pos h3] at hs
          rcases extract_section_text_go_length rest max _ _ s hs with hmem | hlen
          · rcases List.mem_append.mp hmem with hmem | hmem
            · exact Or.inl hmem
            · right
              rw [List.mem_singleton.mp hmem]
              exact h3.2
          · exact Or.inr hlen
        · rw [if_neg h3] at hs
          exact extract_section_text_go_length rest max texts count s hs
      · rw [if_neg h2] at hs
        exact extract_section_text_go_length rest max texts count s hs
    · rw [if_neg h1] at hs
      exact Or.inl hs

/-- Shape of a `structured_extraction` step whose fetch fails: the target
is skipped, contributing no record, and only its primary URL to the trace. -/
theorem structured_extractionT_cons_none (fetch : String → Option Doc) (t : Target)
    (ts : List Target) (h : fetch t.url = none) :
    structured_extractionT fetch (t :: ts) =
      ((structured_extractionT fetch ts).1,
       t.url :: (structured_extractionT fetch ts).2) := by
  simp only [structured_extractionT, h]

/-- Shape of a `structured_extraction` step whose fetch succeeds: exactly
the primary extraction's categories are recorded (the secondary-link merge
is unreachable because `getattr` on a list yields `None`), and only the
primary URL is fetched. -/
theorem structured_extractionT_cons_some (fetch : String → Option Doc) (t : Target)
    (ts : List Target) (doc : Doc) (h : fetch t.url = some doc) :
    structured_extractionT fetch (t :: ts) =
      ({ name := t.name, url := t.url,
         courses := (extract_details doc t.url).1,
         admissions_requirements := (extract_details doc t.url).2.1,
         application_deadlines := (extract_details doc t.url).2.2 } ::
           (structured_extractionT fetch ts).1,
       t.url :: (structured_extractionT fetch ts).2) := by
  simp only [structured_extractionT, h, getattrFollowLinks]
  rcases hE : extract_details doc t.url with ⟨c, r, d⟩
  rcases hS : structured_extractionT fetch ts with ⟨recs, tr⟩
  simp [hE]

/-- Every step of `structured_extraction`, failed or not, fetches exactly
its own primary URL. -/
theorem structured_extraction_fetched_cons (fetch : String → Option Doc)
    (t : Target) (ts : List Target) :
    structured_extraction_fetched fetch (t :: ts) =
      t.url :: structured_extraction_fetched fetch ts := by
  unfold structured_extraction_fetched
  rcases h : fetch t.url with _ | doc
  · rw [structured_extractionT_cons_none fetch t ts h]
  · rw [structured_extractionT_cons_some fetch t ts doc h]

/-- The records `structured_extraction` emits are exactly the
successfully-fetched targets, in input order. -/
theorem structured_extraction_names (fetch : String → Option Doc) :
    (ts : List Target) →
    (structured_extraction fetch ts).map URecord.name =
      (ts.filter (fun t => (fetch t.url).isSome)).map Target.name
  | [] => rfl
  | t :: ts => by
    unfold structured_extraction
    rcases h : fetch t.url with _ | doc
    · rw [structured_extractionT_cons_none fetch t ts h, List.filter_cons]
      simp only [h, Option.isSome_none, Bool.false_eq_true, if_false]
      exact structured_extraction_names fetch ts
    · rw [structured_extractionT_cons_some fetch t ts doc h, List.filter_cons]
      simp only [h, Option.isSome_some, if_true, List.map_cons]
      exact congrArg (List.cons t.name) (structured_extraction_names fetch ts)

/-- The markdown fallback rewrites only category fields: `name` survives. -/
theorem applyFallback_name (data : CIRecord) (m : String) :
    (applyFallback data m).name = data.name := by
  simp only [applyFallback]
  repeat' split
  all_goals rfl

/-- The markdown fallback rewrites only category fields: `url` survives. -/
theorem applyFallback_url (data : CIRecord) (m : String) :
    (applyFallback data m).url = data.url := by
  simp only [applyFallback]
  repeat' split
  all_goals rfl

/-- Any record the fallback stage returns keeps the input's identity fields. -/
theorem fallbackStage_ok_name (data : CIRecord) (md : Option String) (d : CIRecord)
    (h : fallbackStage data md = Except.ok d) : d.name = data.name ∧ d.url = data.url := by
  unfold fallbackStage at h
  rcases hsc : sentinelCheck data with e | b
  · rw [hsc] at h
    simp [Bind.bind, Except.bind] at h
  · rw [hsc] at h
    simp only [Bind.bind, Except.bind] at h
    rcases b with _ | _
    · simp only [Bool.false_eq_true, if_false, pure, Except.pure, Except.ok.injEq] at h
      rw [← h]
      exact ⟨rfl, rfl⟩
    · simp only [if_true] at h
      rcases md with _ | m
      · simp only [pure, Except.pure, Except.ok.injEq] at h
        rw [← h]
        exact ⟨rfl, rfl⟩
      · dsimp only at h
        by_cases hm : m ≠ ""
        · rw [if_pos hm] at h
          simp only [pure, Except.pure, Except.ok.injEq] at h
          rw [← h]
          exact ⟨applyFallback_name data m, applyFallback_url data m⟩
        · rw [if_neg hm] at h
          simp only [pure, Except.pure, Except.ok.injEq] at h
          rw [← h]
          exact ⟨rfl, rfl⟩

/-- A successful `try` body produces a record named after its target. -/
theorem extract_body_ok_name (crawl : String → Except String CrawlResult)
    (uni : Target) (d : CIRecord) (h : extract_body crawl uni = Except.ok d) :
    d.name = uni.name := by
  unfold extract_body at h
  rcases hcr : crawl uni.url with e | result
  · rw [hcr] at h
    simp [Bind.bind, Except.bind] at h
  · rw [hcr] at h
    simp only [Bind.bind, Except.bind] at h
    exact (fallbackStage_ok_name _ _ _ h).1

/-- `extract_university_data` always emits a record named after its target,
through both the success and the exception path. -/
theorem extract_university_data_name (crawl : String → Except String CrawlResult)
    (uni : Target) : (extract_university_data crawl uni).name = uni.name := by
  unfold extract_university_data
  rcases hb : extract_body crawl uni with e | d
  · rfl
  · exact extract_body_ok_name crawl uni d hb

/-! ## Claim C1 — failure isolation and one-record-per-target -/

/-- Claim C1, counterexample: a valid target whose primary fetch fails
produces NO output record at all in `structured_extraction` — the target
is skipped with a log line (`src/main.py` line 237), so the output is
empty rather than one sentinel record with an `error` field. -/
theorem C1_counterexample :
    structured_extraction (fun _ => none) [targetExample] = [] := rfl

/-- Claim C1, amended: failures never stop processing of later targets, but
the two orchestrators degrade differently. In `main_ci.py` every valid
target yields exactly one record, and a target whose crawl raises yields
the all-sentinel record with `error` set; in `main.py` a target whose
primary fetch fails is skipped entirely — no record, no `error` field —
while the remaining targets are still processed. -/
theorem C1_failure_isolation :
    (∀ (crawl : String → Except String CrawlResult) (ts : List Target),
        (process_universities crawl ts).length = ts.length) ∧
    (∀ (crawl : String → Except String CrawlResult) (uni : Target) (e : String),
        crawl uni.url = .error e →
        extract_university_data crawl uni = sentinelRecord uni e) ∧
    (∀ (fetch : String → Option Doc) (t : Target) (ts : List Target),
        fetch t.url = none →
        structured_extraction fetch (t :: ts) = structured_extraction fetch ts) := by
  refine ⟨?_, ?_, ?_⟩
  · intro crawl ts
    unfold process_universities
    rw [process_batches_eq_map, List.length_map]
  · intro crawl uni e h
    unfold extract_university_data extract_body
    rw [h]
    rfl
  · intro fetch t ts h
    unfold structured_extraction
    rw [structured_extractionT_cons_none fetch t ts h]

/-- Claim C1, witness: the amended statement at concrete inputs — a
one-target run whose crawl raises still yields one (sentinel) record, and
a failed fetch in `main.py` drops the head target while keeping the rest. -/
theorem C1_failure_isolation_witness :
    (process_universities (fun _ => .error "net down") [targetExample]).length = 1 ∧
    extract_university_data (fun _ => .error "net down") targetExample =
      sentinelRecord targetExample "net down" ∧
    structured_extraction (fun _ => none) (targetExample :: [targetLinksOnly]) =
      structured_extraction (fun _ => none) [targetLinksOnly] :=
  ⟨C1_failure_isolation.1 (fun _ => .error "net down") [targetExample],
   C1_failure_isolation.2.1 (fun _ => .error "net down") targetExample "net down" rfl,
   C1_failure_isolation.2.2 (fun _ => none) targetExample [targetLinksOnly] rfl⟩

/-! ## Claim C2 — sentinel-or-content invariant -/

/-- Claim C2: refuted by the code — when the CSS extraction returns a
present-but-empty list for a category while another category has content,
`dict.get(key, ["Not found"])` returns the empty list (the default only
applies to a missing key) and the record is emitted with an empty category
field, never re-sentineled. Here `admissions_requirements` comes out `[]`
on the success path (no `error` field), violating the invariant. -/
theorem C2_empty_category_emitted :
    (extract_university_data crawlEmptyReq targetExample).admissions_requirements = [] ∧
    (extract_university_data crawlEmptyReq targetExample).courses =
      ["Introduction to Computer Science"] ∧
    (extract_university_data crawlEmptyReq targetExample).error = none :=
  ⟨rfl, rfl, rfl⟩

/-! ## Claim C3 — strategy cascade priority -/

/-- Claim C3, counterexample: strategies are blended within a category.
On `docBlend` the header-keyword scan (strategy 1) yields one item, the
curated-selector scan (strategy 2) yields another, and `extract_details`
returns both — not the first non-empty strategy's result alone. -/
theorem C3_counterexample :
    strategy1_courses docBlend = ["Introductory mathematics sequence"] ∧
    (extract_details docBlend "https://u.edu").1 =
      ["Introductory mathematics sequence", "Bachelor of Fine Arts program"] ∧
    (extract_details docBlend "https://u.edu").1 ≠ strategy1_courses docBlend := by
  refine ⟨rfl, rfl, ?_⟩
  decide

/-- Claim C3, amended: within a category the strategies are cascaded by
appending (later strategies add items not already present), not
first-wins: the courses output is exactly the header-scan result extended
by the not-yet-seen curated-selector items. The last-resort markdown line
scan (strategy 5, `main_ci.py`) is however never blended: whenever the
primary data's courses head is non-sentinel the fallback stage returns the
data unchanged, so strategy 5's results never appear alongside others. -/
theorem C3_cascade_blending :
    (∀ (doc : Doc) (url : String),
        (extract_details doc url).1 =
          (let blended := (strategy2_course_items doc).foldl appendNew (strategy1_courses doc)
           if blended = [] then ["Not found"] else blended)) ∧
    (∀ (data : CIRecord) (md : Option String) (c : String) (cs : List String),
        data.courses = c :: cs → c ≠ "Not found" →
        fallbackStage data md = .ok data) := by
  constructor
  · intro doc url
    rfl
  · intro data md c cs hc hne
    unfold fallbackStage sentinelCheck
    rw [hc]
    simp only [hne, ne_eq, not_false_eq_true, if_true]
    rfl

/-- Claim C3, witness: the fallback stage leaves a record with a
non-sentinel course head untouched even when markdown lines that would
match the line scan are available, and the blending equation evaluated on
`docBlend`. -/
theorem C3_cascade_blending_witness :
    fallbackStage recWithCourses (some "application deadline: January 5") =
      .ok recWithCourses ∧
    (extract_details docBlend "https://u.edu").1 =
      (let blended := (strategy2_course_items docBlend).foldl appendNew
        (strategy1_courses docBlend)
       if blended = [] then ["Not found"] else blended) :=
  ⟨C3_cascade_blending.2 recWithCourses (some "application deadline: January 5")
      "Course list for the spring term" [] rfl (by decide),
   C3_cascade_blending.1 docBlend "https://u.edu"⟩

/-! ## Claim C4 — secondary links are produced but never followed -/

/-- Claim C4: the first half holds internally (the link-follow fallback
fires only when all categories are empty), but the orchestrator never
fetches any secondary link: `extract_details` drops `follow_links` from its
return value, and `getattr(courses, "follow_links", None)` on a plain list
is always `None`. For every run the fetched URLs are exactly the primary
target URLs; on `docLinksOnly` the record stays all-sentinel although the
admissions link serves a page with extractable course content. -/
theorem C4_links_never_followed :
    (∀ (fetch : String → Option Doc) (ts : List Target),
        structured_extraction_fetched fetch ts = ts.map Target.url) ∧
    (extract_details_result docLinksOnly "https://u.edu").follow_links =
      [("admissions", "https://u.edu/admissions")] ∧
    (extract_details docSecondary "https://u.edu/admissions").1 =
      ["Full course listings for every term."] ∧
    structured_extractionT fetchLinksOnly [targetLinksOnly] =
      ([{ name := "U", url := "https://u.edu", courses := ["Not found"],
          admissions_requirements := ["Not found"],
          application_deadlines := ["Not found"] }],
       ["https://u.edu"]) := by
  refine ⟨?_, rfl, rfl, rfl⟩
  intro fetch ts
  induction ts with
  | nil => rfl
  | cons t rest ih =>
    rw [structured_extraction_fetched_cons fetch t rest, List.map_cons, ih]

/-! ## Claim C5 — cross-page merge semantics -/

/-- Claim C5, counterexample: merging two sentinel lists yields the empty
list, not the sentinel, and deduplication compares strings after trimming
only — two items differing in internal whitespace are both kept even
though whitespace normalization would identify them. -/
theorem C5_counterexample :
    merge_category ["Not found"] ["Not found"] = [] ∧
    merge_category ["Not found"] ["Not found"] ≠ ["Not found"] ∧
    merge_category ["A  B"] ["A B"] = ["A  B", "A B"] := by
  refine ⟨rfl, ?_, rfl⟩
  decide

/-- Claim C5, amended: the merge appends the secondary's items to the
primary and deduplicates by exact equality of trimmed strings (internal
whitespace runs are not collapsed), preserving first-seen order and
dropping the placeholder tokens "Not found", "" and "None" wherever they
occur; merging ["A","B"] with ["B","C"] gives ["A","B","C"]; a sentinel
primary contributes nothing, so the result is the deduplicated secondary,
and merging two sentinel lists yields the empty list. -/
theorem C5_merge_semantics :
    merge_category ["A", "B"] ["B", "C"] = ["A", "B", "C"] ∧
    (∀ s : List String, merge_category ["Not found"] s = merge_dedup [] s) ∧
    merge_category ["Not found"] ["Not found"] = [] := by
  refine ⟨rfl, ?_, rfl⟩
  intro s
  have h : ¬(pyStrip "Not found" ≠ "" ∧
      pyStrip "Not found" ∉ ([] : List String) ∧
      pyStrip "Not found" ≠ "None" ∧
      pyStrip "Not found" ≠ "Not found") := by decide
  show merge_dedup [] ("Not found" :: s) = merge_dedup [] s
  simp only [merge_dedup, if_neg h]

/-! ## Claim C6 — retry and backoff schedule -/

/-- Claim C6: against responses [429, 429, 200] the fetcher succeeds after
exactly 3 attempts with backoff sleeps of 5 then 10 seconds; a single 404
response produces an immediate non-retryable failure after 1 attempt with
no sleep. -/
theorem C6_retry_backoff :
    fetch_html (fun i => if i < 2 then .status 429 else .status 200) 3 =
      ⟨.success, 3, [5, 10]⟩ ∧
    fetch_html (fun _ => .status 404) 3 = ⟨.hardFailure, 1, []⟩ :=
  ⟨rfl, rfl⟩

/-! ## Claim C7 — output order equals input order -/

/-- Claim C7: both orchestrations preserve input order. The batched CI
processing emits exactly one record per target, named in input order, for
every batch size (asyncio.gather returns results in task order, modelled
by the per-batch map); the sequential `main.py` orchestrator emits the
successfully-fetched targets' records in input order. -/
theorem C7_order_preserved :
    (∀ (crawl : String → Except String CrawlResult) (n : Nat) (ts : List Target),
        (process_batches crawl n ts).map CIRecord.name = ts.map Target.name) ∧
    (∀ (crawl : String → Except String CrawlResult) (ts : List Target),
        (process_universities crawl ts).map CIRecord.name = ts.map Target.name) ∧
    (∀ (fetch : String → Option Doc) (ts : List Target),
        (structured_extraction fetch ts).map URecord.name =
          (ts.filter (fun t => (fetch t.url).isSome)).map Target.name) := by
  have hbatch : ∀ (crawl : String → Except String CrawlResult) (n : Nat)
      (ts : List Target),
      (process_batches crawl n ts).map CIRecord.name = ts.map Target.name := by
    intro crawl n ts
    rw [process_batches_eq_map, List.map_map]
    exact List.map_congr_left (fun t _ => extract_university_data_name crawl t)
  exact ⟨hbatch, fun crawl ts => hbatch crawl _ ts,
    fun fetch ts => structured_extraction_names fetch ts⟩

/-! ## Claim C8 — dedup idempotence -/

/-- Claim C8, counterexample: merging a list with itself is not the
identity in general — a list with an internal duplicate collapses. -/
theorem C8_counterexample :
    merge_category ["A", "A"] ["A", "A"] = ["A"] ∧
    merge_category ["A", "A"] ["A", "A"] ≠ ["A", "A"] := by
  refine ⟨rfl, ?_⟩
  decide

/-- Claim C8, amended: merging a category list with itself returns the
list unchanged (order and content) exactly on the lists the merger itself
produces — those whose trimmed elements are pairwise distinct and contain
no placeholder token ("", "None", "Not found"); in general the self-merge
collapses duplicates and drops placeholders. -/
theorem C8_self_merge_id (L : List String)
    (hnd : (L.map pyStrip).Nodup)
    (hpl : ∀ x ∈ L, pyStrip x ≠ "" ∧ pyStrip x ≠ "None" ∧ pyStrip x ≠ "Not found") :
    merge_category L L = L := by
  unfold merge_category
  rw [merge_dedup_append L L [],
    merge_dedup_nil L (seenAfter [] L) (seenAfter_covers L []),
    List.append_nil,
    merge_dedup_id L [] hnd hpl (fun x _ => List.not_mem_nil (pyStrip x))]

/-- Claim C8, witness: the amended idempotence at a concrete
duplicate-free, placeholder-free list. -/
theorem C8_self_merge_id_witness :
    merge_category ["Fine Arts", "Computer Science"] ["Fine Arts", "Computer Science"] =
      ["Fine Arts", "Computer Science"] :=
  C8_self_merge_id ["Fine Arts", "Computer Science"] (by decide) (by decide)

/-! ## Claim C9 — minimum-length filter of the header scan -/

/-- Claim C9, counterexample: an item whose normalized text has exactly 15
characters is discarded (the code keeps items with `len(text) > 15`), so a
page whose only section text is 15 characters long extracts nothing,
although the claim says length-15 items are kept. -/
theorem C9_counterexample :
    (clean_text "ABCDEFGHIJKLMNO").length = 15 ∧
    extract_details docLen15 "https://u.edu" =
      (["Not found"], ["Not found"], ["Not found"]) :=
  ⟨rfl, rfl⟩

/-- Claim C9, amended: the section walker keeps an item exactly when its
normalized text is strictly longer than 15 characters: everything it
collects has length at least 16, and a 16-character item is kept. -/
theorem C9_length_filter :
    (∀ (ns : List Node) (max : Nat) (s : String),
        s ∈ extract_section_text ns max → 15 < s.length) ∧
    extract_details docLen16 "https://u.edu" =
      (["ABCDEFGHIJKLMNOP"], ["Not found"], ["Not found"]) := by
  constructor
  · intro ns max s hs
    rcases extract_section_text_go_length ns max [] 0 s hs with h | h
    · exact absurd h (List.not_mem_nil s)
    · exact h
  · rfl

/-- Claim C9, witness: the soundness half applied to a concrete walk. -/
theorem C9_length_filter_witness :
    15 < ("ABCDEFGHIJKLMNOP" : String).length :=
  C9_length_filter.1 [Node.elem "p" [] none [Node.txt "ABCDEFGHIJKLMNOP"]] 5
    "ABCDEFGHIJKLMNOP" (by decide)

/-! ## Claim C10 — per-keyword header collection duplicates items -/

/-- Claim C10: a heading whose text contains two keywords of the same
category ("Courses and Programs" contains both "course" and "program") is
collected once per keyword, and the header-scan results are never
deduplicated, so the same section text appears twice in the output. -/
theorem C10_duplicate_items :
    (extract_details docTwoKeywords "https://u.edu").1 =
      ["We offer many excellent degree options.",
       "We offer many excellent degree options."] ∧
    ¬ (extract_details docTwoKeywords "https://u.edu").1.Nodup := by
  refine ⟨rfl, ?_⟩
  intro h
  rw [show (extract_details docTwoKeywords "https://u.edu").1 =
      ["We offer many excellent degree options.",
       "We offer many excellent degree options."] from rfl] at h
  simp at h

end Crawler
